import Mathlib

/-!
Shallow embedding of lingo24/business_documents/jobs.py: the value types
Price, JobPrice, Metric, and the Job entity with its fetch, refresh and
delete operations. External collaborators (the HTTP client, the jobs
registry, the id-keyed service/locale/file registries) are passed in as
function parameters; their contracts follow the documented collaborator
interface (a transport failure carries an HTTP status code).
-/

set_option maxHeartbeats 1000000

/-- Exact decimal number as held by Python Decimal after parsing a decimal
string: an integer mantissa and a count of fractional digits, denoting
man / 10 ^ exp. -/
structure Dec where
  man : Int
  exp : Nat
deriving DecidableEq, Repr

/-- Rational value denoted by a decimal. -/
def Dec.toRat (d : Dec) : ℚ := (d.man : ℚ) / (10 : ℚ) ^ d.exp

/-- Exact decimal addition: align both mantissas to the larger count of
fractional digits and add the mantissas, as Python Decimal addition does
(exact within context precision). -/
def Dec.add (x y : Dec) : Dec :=
  ⟨x.man * 10 ^ (max x.exp y.exp - x.exp) + y.man * 10 ^ (max x.exp y.exp - y.exp),
   max x.exp y.exp⟩

/-- Exact decimal subtraction, aligned the same way as Dec.add. -/
def Dec.sub (x y : Dec) : Dec :=
  ⟨x.man * 10 ^ (max x.exp y.exp - x.exp) - y.man * 10 ^ (max x.exp y.exp - y.exp),
   max x.exp y.exp⟩

/-- Round m / d to the nearest integer with ties to even, the default
rounding mode (ROUND_HALF_EVEN) of the Python decimal context used by
Decimal.quantize. d is assumed positive. -/
def roundHalfEvenDiv (m d : Int) : Int :=
  if 2 * (m % d) < d then m / d
  else if d < 2 * (m % d) then m / d + 1
  else if m / d % 2 = 0 then m / d else m / d + 1

/-- Quantization Decimal(str(x)).quantize(DP2) with DP2 = Decimal 0.00:
exact when the input has at most two fractional digits, otherwise round
half to even at the second fractional digit. -/
def Dec.quantizeDP2 (d : Dec) : Dec :=
  if d.exp ≤ 2 then ⟨d.man * 10 ^ (2 - d.exp), 2⟩
  else ⟨roundHalfEvenDiv d.man (10 ^ (d.exp - 2)), 2⟩

/-- String rendering of a decimal, matching Python str on a Decimal with
exp fractional digits (and on a plain int when exp = 0). -/
def Dec.pyStr (d : Dec) : String :=
  if d.exp = 0 then toString d.man
  else
    (if d.man < 0 then "-" else "")
      ++ toString (d.man.natAbs / 10 ^ d.exp)
      ++ "."
      ++ String.mk (List.replicate (d.exp - (toString (d.man.natAbs % 10 ^ d.exp)).length) '0')
      ++ toString (d.man.natAbs % 10 ^ d.exp)

/-- Failure raised by Price addition on differing currency codes (a
ValueError in the source; named CurrencyMismatch in the design taxonomy). -/
structure CurrencyMismatch where
  msg : String
deriving DecidableEq, Repr

/-- Price value object: currency code plus net and gross decimals. -/
structure Price where
  currency_code : String
  net : Dec
  gross : Dec
deriving DecidableEq, Repr

/-- Price.__eq__ restricted to two Price operands: field-wise comparison. -/
def Price.eqPrice (a b : Price) : Bool :=
  a.currency_code == b.currency_code && a.net == b.net && a.gross == b.gross

/-- Price.__add__: raises on differing currency codes, otherwise sums net
and gross pointwise and keeps the currency code. -/
def Price.add (a b : Price) : Except CurrencyMismatch Price :=
  if a.currency_code ≠ b.currency_code then
    Except.error ⟨"Cannot add prices with different currencies"⟩
  else
    Except.ok ⟨a.currency_code, a.net.add b.net, a.gross.add b.gross⟩

/-- Price._format_currency: GBP, USD, EUR get their symbol prefixed
directly; any other code is prefixed with the code and a space. -/
def formatCurrency (code value : String) : String :=
  if code = "GBP" then "£" ++ value
  else if code = "USD" then "$" ++ value
  else if code = "EUR" then "€" ++ value
  else code ++ " " ++ value

/-- Price.tax: always gross - net. -/
def Price.tax (p : Price) : Dec := p.gross.sub p.net

/-- Price.formatted_net. -/
def Price.formatted_net (p : Price) : String :=
  formatCurrency p.currency_code p.net.pyStr

/-- Price.formatted_gross. -/
def Price.formatted_gross (p : Price) : String :=
  formatCurrency p.currency_code p.gross.pyStr

/-- Price.formatted_tax. -/
def Price.formatted_tax (p : Price) : String :=
  formatCurrency p.currency_code p.tax.pyStr

/-- JobPrice value object: the discounted and non-discounted Price totals. -/
structure JobPrice where
  total_with_discount : Price
  total_without_discount : Price
deriving DecidableEq, Repr

/-- JobPrice.__eq__ restricted to two JobPrice operands. -/
def JobPrice.eqJobPrice (a b : JobPrice) : Bool :=
  a.total_with_discount == b.total_with_discount &&
  a.total_without_discount == b.total_without_discount

/-- JobPrice.__add__: component-wise Price addition, so a currency
mismatch in either component propagates. -/
def JobPrice.add (a b : JobPrice) : Except CurrencyMismatch JobPrice := do
  let w ← a.total_with_discount.add b.total_with_discount
  let wo ← a.total_without_discount.add b.total_without_discount
  return ⟨w, wo⟩

/-- Metric value object: the four counters. -/
structure Metric where
  white_spaces : Int
  segments : Int
  words : Int
  characters : Int
deriving DecidableEq, Repr

/-- Metric.__eq__ restricted to two Metric operands. -/
def Metric.eqMetric (a b : Metric) : Bool :=
  a.white_spaces == b.white_spaces && a.segments == b.segments &&
  a.words == b.words && a.characters == b.characters

/-- Metric.__add__: component-wise, total. -/
def Metric.add (a b : Metric) : Metric :=
  ⟨a.white_spaces + b.white_spaces, a.segments + b.segments,
   a.words + b.words, a.characters + b.characters⟩

/-- Metric.__nonzero__: Python truthiness, true when any counter is
nonzero. -/
def Metric.nonzero (m : Metric) : Bool :=
  m.white_spaces != 0 || m.segments != 0 || m.words != 0 || m.characters != 0

/-- Transport failure raised by the HTTP collaborator; per the documented
collaborator contract it carries the HTTP status code of the failed
request. -/
structure TransportErr where
  status_code : Nat
deriving DecidableEq, Repr

/-- Modelled from the spec: reraise(APIError) in the exceptions module is
outside src; per the spec the original transport failure is preserved as
the cause of the generic APIError. -/
structure APIErr where
  cause : TransportErr
deriving DecidableEq, Repr

/-- Wire shape of a successful price response. -/
structure PriceResponse where
  currencyCode : String
  totalWoVatWDiscount : Dec
  totalWVatWDiscount : Dec
  totalWoVatWoDiscount : Dec
  totalWVatWoDiscount : Dec
deriving DecidableEq, Repr

/-- Job.price with the outcome of api_get_json on the price path passed
in: a 404 yields none, any other transport failure is wrapped as APIErr
keeping the cause, and a successful response is parsed into a JobPrice
whose four wire figures are each quantized to two decimal places. -/
def jobPriceFetch (resp : Except TransportErr PriceResponse) :
    Except APIErr (Option JobPrice) :=
  match resp with
  | Except.error e =>
      if e.status_code = 404 then Except.ok none else Except.error ⟨e⟩
  | Except.ok r =>
      Except.ok (some
        ⟨⟨r.currencyCode, r.totalWoVatWDiscount.quantizeDP2,
          r.totalWVatWDiscount.quantizeDP2⟩,
         ⟨r.currencyCode, r.totalWoVatWoDiscount.quantizeDP2,
          r.totalWVatWoDiscount.quantizeDP2⟩⟩)

/-- Wire shape of one entry of a metrics response. -/
structure MetricData where
  WHITE_SPACES : Int
  SEGMENTS : Int
  WORDS : Int
  CHARACTERS : Int
deriving DecidableEq, Repr

/-- The to_metric helper inside Job.metrics. -/
def toMetric (d : MetricData) : Metric :=
  ⟨d.WHITE_SPACES, d.SEGMENTS, d.WORDS, d.CHARACTERS⟩

/-- Job.metrics with the api_get_json outcome passed in: a 404 yields the
empty mapping, any other transport failure is wrapped as APIErr keeping
the cause, and a successful response is mapped entry-wise to Metric. -/
def metricsFetch (resp : Except TransportErr (List (String × MetricData))) :
    Except APIErr (List (String × Metric)) :=
  match resp with
  | Except.error e =>
      if e.status_code = 404 then Except.ok [] else Except.error ⟨e⟩
  | Except.ok vs => Except.ok (vs.map (fun kv => (kv.1, toMetric kv.2)))

/-- Own fields of a Job object. The owning collection and the owned files
sub-collection are abstract handles; relation ids are optional as in the
source constructor. -/
structure JobState where
  collection : Nat
  id : Nat
  status : String
  service_id : Option Nat
  source_locale_id : Option Nat
  target_locale_id : Option Nat
  source_file_id : Option Nat
  target_file_id : Option Nat
  files : Nat
deriving DecidableEq, Repr

/-- Job.__eq__ restricted to two Job operands: field-wise on the eight
compared fields (the files sub-collection is not compared in the source). -/
def jobEqJob (a b : JobState) : Bool :=
  a.collection == b.collection && a.id == b.id && a.status == b.status &&
  a.service_id == b.service_id && a.source_locale_id == b.source_locale_id &&
  a.target_locale_id == b.target_locale_id &&
  a.source_file_id == b.source_file_id && a.target_file_id == b.target_file_id

/-- Id-keyed registries of the owning client, abstract: each maps the
passed id (possibly none) to the looked-up object handle. -/
structure ClientFuns where
  servicesGet : Option Nat → Option Nat
  localesGet : Option Nat → Option Nat
  filesGet : Option Nat → Option Nat

/-- Job.target_locale: the source performs the lookup unconditionally,
passing target_locale_id to client.locales.get with no None check. The
second component counts lookup calls issued. -/
def Job.target_locale_acc (c : ClientFuns) (j : JobState) : Option Nat × Nat :=
  (c.localesGet j.target_locale_id, 1)

/-- Job.target_file: none without any lookup when target_file_id is
absent, otherwise one lookup through client.files.get. The second
component counts lookup calls issued. -/
def Job.target_file_acc (c : ClientFuns) (j : JobState) : Option Nat × Nat :=
  match j.target_file_id with
  | none => (none, 0)
  | some i => (c.filesGet (some i), 1)

/-- Modelled from the spec: collection.jobs.get lives in the collections
module, outside src; per the spec refresh re-fetches the same id from the
owning collection. g maps a collection handle and a job id to the freshly
fetched JobState; Job.refresh replaces every own field with the fetched
fields, in place. -/
def Job.refreshOp (g : Nat → Nat → JobState) (s : JobState) : JobState :=
  g s.collection s.id

/-- Job.url_path: built by the owning collection from the job id. -/
def Job.urlPath (itemUrlPath : Nat → Nat → String) (s : JobState) : String :=
  itemUrlPath s.collection s.id

/-- Job.delete: api_delete on the job resource path; a transport failure
is reraised as APIErr keeping the cause; the local fields are returned
unchanged in either case. -/
def Job.deleteOp (api : String → Except TransportErr Unit)
    (itemUrlPath : Nat → Nat → String) (s : JobState) :
    Except APIErr Unit × JobState :=
  match api (Job.urlPath itemUrlPath s) with
  | Except.ok _ => (Except.ok (), s)
  | Except.error e => (Except.error ⟨e⟩, s)

/-- Dynamic value universe for cross-type equality comparisons at the
public interface. -/
inductive PyVal where
  | vjob (j : JobState)
  | vjobPrice (p : JobPrice)
  | vprice (p : Price)
  | vmetric (m : Metric)
  | vint (n : Int)
  | vstr (s : String)
deriving DecidableEq, Repr

/-- Whether a dynamic value is a JobPrice. -/
def PyVal.isJobPrice : PyVal → Bool
  | PyVal.vjobPrice _ => true
  | _ => false

/-- Whether a dynamic value is a Price. -/
def PyVal.isPrice : PyVal → Bool
  | PyVal.vprice _ => true
  | _ => false

/-- Whether a dynamic value is a Metric. -/
def PyVal.isMetric : PyVal → Bool
  | PyVal.vmetric _ => true
  | _ => false

/-- Whether a dynamic value is a Job. -/
def PyVal.isJob : PyVal → Bool
  | PyVal.vjob _ => true
  | _ => false

/-- JobPrice.__eq__ on an arbitrary operand: an explicit isinstance guard
returns False for any non-JobPrice value. -/
def JobPrice.eqPy (a : JobPrice) (v : PyVal) : Bool :=
  match v with
  | PyVal.vjobPrice b => a.eqJobPrice b
  | _ => false

/-- Price.__eq__ on an arbitrary operand: the source reads currency_code,
net and gross off the other operand with no type guard; none models the
AttributeError raised when those fields are absent. -/
def Price.eqPy (a : Price) (v : PyVal) : Option Bool :=
  match v with
  | PyVal.vprice b => some (a.eqPrice b)
  | _ => none

/-- Metric.__eq__ on an arbitrary operand: reads the four counters off the
other operand with no type guard; none models the AttributeError. -/
def Metric.eqPy (a : Metric) (v : PyVal) : Option Bool :=
  match v with
  | PyVal.vmetric b => some (a.eqMetric b)
  | _ => none

/-- Job.__eq__ on an arbitrary operand: reads the eight compared fields
off the other operand with no type guard; none models the AttributeError. -/
def JobState.eqPy (a : JobState) (v : PyVal) : Option Bool :=
  match v with
  | PyVal.vjob b => some (jobEqJob a b)
  | _ => none

/-- Statement of claim C3 as written: both target accessors short-circuit
to none with no lookup call when their id is absent, and perform exactly
one id-based lookup otherwise. -/
def claimC3 : Prop :=
  ∀ (c : ClientFuns) (j : JobState),
    (j.target_locale_id = none → Job.target_locale_acc c j = (none, 0))
    ∧ (j.target_file_id = none → Job.target_file_acc c j = (none, 0))
    ∧ (∀ i, j.target_locale_id = some i →
        Job.target_locale_acc c j = (c.localesGet (some i), 1))
    ∧ (∀ i, j.target_file_id = some i →
        Job.target_file_acc c j = (c.filesGet (some i), 1))

theorem jobEqJob_refl (s : JobState) : jobEqJob s s = true := by
  simp [jobEqJob]

/-- Claim C5: Metric addition is component-wise on the four counters, is
defined for every pair of Metric values, and is commutative and
associative under Metric field-wise equality. -/
theorem C5_metric_add_comm_assoc (m1 m2 m3 : Metric) :
    Metric.eqMetric (Metric.add (Metric.add m1 m2) m3)
      (Metric.add m1 (Metric.add m2 m3)) = true
    ∧ Metric.eqMetric (Metric.add m1 m2) (Metric.add m2 m1) = true
    ∧ Metric.add m1 m2 =
        ⟨m1.white_spaces + m2.white_spaces, m1.segments + m2.segments,
         m1.words + m2.words, m1.characters + m2.characters⟩ := by
  refine ⟨?_, ?_, rfl⟩ <;> simp [Metric.eqMetric, Metric.add] <;>
    constructor <;> try constructor
  all_goals omega

/-- Claim C6: the Metric emptiness predicate (negated truthiness) holds
exactly when all four counters are zero; Metric 0 0 0 0 is empty and
Metric 1 0 0 0 is not. -/
theorem C6_metric_emptiness (m : Metric) :
    (Metric.nonzero m = false ↔
      (m.white_spaces = 0 ∧ m.segments = 0 ∧ m.words = 0 ∧ m.characters = 0))
    ∧ Metric.nonzero ⟨0, 0, 0, 0⟩ = false
    ∧ Metric.nonzero ⟨1, 0, 0, 0⟩ = true := by
  refine ⟨?_, by decide, by decide⟩
  simp [Metric.nonzero, and_assoc]

theorem C6_metric_emptiness_witness :
    Metric.nonzero ⟨0, 0, 0, 0⟩ = false :=
  (C6_metric_emptiness ⟨0, 0, 0, 0⟩).1.mpr ⟨rfl, rfl, rfl, rfl⟩

/-- Claim C2: with the transport outcome of the backing request passed in,
Job.price returns none and Job.metrics returns the empty mapping when the
request failed with status 404; any other transport failure makes both
raise a generic APIErr that preserves the original failure as its cause. -/
theorem C2_fetch_404_policy (e : TransportErr) :
    (e.status_code = 404 →
      jobPriceFetch (Except.error e) = Except.ok none
      ∧ metricsFetch (Except.error e) = Except.ok [])
    ∧ (e.status_code ≠ 404 →
      jobPriceFetch (Except.error e) = Except.error ⟨e⟩
      ∧ metricsFetch (Except.error e) = Except.error ⟨e⟩) := by
  constructor <;> intro h <;> simp [jobPriceFetch, metricsFetch, h]

theorem C2_fetch_404_policy_witness :
    (jobPriceFetch (Except.error ⟨404⟩) = Except.ok none)
    ∧ (metricsFetch (Except.error (⟨500⟩ : TransportErr)) =
        Except.error ⟨⟨500⟩⟩) :=
  ⟨((C2_fetch_404_policy ⟨404⟩).1 rfl).1,
   ((C2_fetch_404_policy ⟨500⟩).2 (by decide)).2⟩

/-- Claim C3 as stated is false: Job.target_locale performs its lookup
unconditionally, issuing one call to client.locales.get even when
target_locale_id is none, instead of short-circuiting to none with no
call. Refuted on a job with absent target_locale_id and a registry that
counts as looked up. -/
theorem C3_counterexample : ¬ claimC3 := by
  intro h
  have hc := (h ⟨fun _ => none, fun _ => none, fun _ => none⟩
      ⟨0, 1, "NEW", none, none, none, none, none, 0⟩).1 rfl
  simp [Job.target_locale_acc] at hc

/-- Claim C3 amended: target_file short-circuits to none with no lookup
call when target_file_id is none and performs exactly one id-based lookup
otherwise; target_locale always performs exactly one lookup through the
locales registry, passing target_locale_id unchanged (even when none)
rather than short-circuiting. -/
theorem C3_target_accessors (c : ClientFuns) (j : JobState) :
    Job.target_locale_acc c j = (c.localesGet j.target_locale_id, 1)
    ∧ (j.target_file_id = none → Job.target_file_acc c j = (none, 0))
    ∧ (∀ i, j.target_file_id = some i →
        Job.target_file_acc c j = (c.filesGet (some i), 1)) := by
  refine ⟨rfl, ?_, ?_⟩
  · intro h
    simp [Job.target_file_acc, h]
  · intro i h
    simp [Job.target_file_acc, h]

theorem C3_target_accessors_witness :
    Job.target_file_acc ⟨fun _ => none, fun _ => none, fun _ => some 9⟩
      ⟨0, 1, "NEW", none, none, none, none, none, 0⟩ = (none, 0) :=
  (C3_target_accessors ⟨fun _ => none, fun _ => none, fun _ => some 9⟩
      ⟨0, 1, "NEW", none, none, none, none, none, 0⟩).2.1 rfl

theorem rat_shift_div (m : ℚ) (e E : Nat) (h : e ≤ E) :
    m * (10 : ℚ) ^ (E - e) / (10 : ℚ) ^ E = m / (10 : ℚ) ^ e := by
  have h10 : (10 : ℚ) ^ E = (10 : ℚ) ^ e * (10 : ℚ) ^ (E - e) := by
    rw [← pow_add]
    congr 1
    omega
  have he : (10 : ℚ) ^ e ≠ 0 := by positivity
  have hEe : (10 : ℚ) ^ (E - e) ≠ 0 := by positivity
  rw [h10]
  field_simp
  ring

theorem Dec.add_toRat (x y : Dec) : (x.add y).toRat = x.toRat + y.toRat := by
  unfold Dec.add Dec.toRat
  push_cast
  rw [add_div, rat_shift_div _ _ _ (le_max_left x.exp y.exp),
    rat_shift_div _ _ _ (le_max_right x.exp y.exp)]

/-- Claim C1: Price addition fails with the currency-mismatch error
exactly when the currency codes differ; with equal codes it returns a new
Price with the same code whose net and gross are the pointwise sums, and
decimal addition is exact (rational values add) and introduces no
fractional digits beyond two when both operands have at most two. -/
theorem C1_price_add (a b : Price) :
    ((∃ e, Price.add a b = Except.error e) ↔ a.currency_code ≠ b.currency_code)
    ∧ (a.currency_code = b.currency_code →
        Price.add a b =
          Except.ok ⟨a.currency_code, a.net.add b.net, a.gross.add b.gross⟩)
    ∧ (∀ x y : Dec, (x.add y).toRat = x.toRat + y.toRat)
    ∧ (∀ x y : Dec, x.exp ≤ 2 → y.exp ≤ 2 → (x.add y).exp ≤ 2) := by
  refine ⟨?_, ?_, fun x y => Dec.add_toRat x y, fun x y hx hy => ?_⟩
  · by_cases h : a.currency_code = b.currency_code <;> simp [Price.add, h]
  · intro h
    simp [Price.add, h]
  · simp only [Dec.add]
    omega

theorem C1_price_add_witness :
    ("GBP" = "GBP")
    ∧ Price.add ⟨"GBP", ⟨100, 2⟩, ⟨120, 2⟩⟩ ⟨"GBP", ⟨250, 2⟩, ⟨300, 2⟩⟩ =
        Except.ok ⟨"GBP", ⟨350, 2⟩, ⟨420, 2⟩⟩ := by
  refine ⟨rfl, ?_⟩
  have h := (C1_price_add ⟨"GBP", ⟨100, 2⟩, ⟨120, 2⟩⟩
    ⟨"GBP", ⟨250, 2⟩, ⟨300, 2⟩⟩).2.1 rfl
  exact h

theorem roundHalfEvenDiv_close (m d : Int) (hd : 0 < d) :
    2 * |roundHalfEvenDiv m d * d - m| ≤ d := by
  have hqr : d * (m / d) + m % d = m := Int.ediv_add_emod m d
  have hr0 : 0 ≤ m % d := Int.emod_nonneg m (ne_of_gt hd)
  have hr1 : m % d < d := Int.emod_lt_of_pos m hd
  unfold roundHalfEvenDiv
  split_ifs with h1 h2 h3
  · have he : m / d * d - m = -(m % d) := by linear_combination hqr
    rw [he, abs_neg, abs_of_nonneg hr0]
    linarith
  · have he : (m / d + 1) * d - m = d - m % d := by linear_combination hqr
    rw [he, abs_of_nonneg (by linarith)]
    linarith
  · have he : m / d * d - m = -(m % d) := by linear_combination hqr
    rw [he, abs_neg, abs_of_nonneg hr0]
    linarith
  · have he : (m / d + 1) * d - m = d - m % d := by linear_combination hqr
    rw [he, abs_of_nonneg (by linarith)]
    linarith

/-- Claim C4: a successful price response is parsed with each of the four
monetary figures quantized to exactly two fractional digits; the
quantization always lands on two fractional digits, is within half a cent
of the exact decimal value (the default fixed-point rounding, half to
even), and is the identity on values that already have at most two
fractional digits; no binary floating point enters the model. -/
theorem C4_price_quantization (r : PriceResponse) (d : Dec) :
    jobPriceFetch (Except.ok r) = Except.ok (some
      ⟨⟨r.currencyCode, r.totalWoVatWDiscount.quantizeDP2,
        r.totalWVatWDiscount.quantizeDP2⟩,
       ⟨r.currencyCode, r.totalWoVatWoDiscount.quantizeDP2,
        r.totalWVatWoDiscount.quantizeDP2⟩⟩)
    ∧ d.quantizeDP2.exp = 2
    ∧ 2 * |d.quantizeDP2.man * (10 : ℤ) ^ d.exp - d.man * 100| ≤ (10 : ℤ) ^ d.exp
    ∧ (d.exp ≤ 2 → d.quantizeDP2.toRat = d.toRat) := by
  refine ⟨rfl, ?_, ?_, ?_⟩
  · unfold Dec.quantizeDP2
    split_ifs <;> rfl
  · by_cases h : d.exp ≤ 2
    · have h2 : (2 - d.exp) + d.exp = 2 := by omega
      have hp : (10 : ℤ) ^ (2 - d.exp) * (10 : ℤ) ^ d.exp = 100 := by
        rw [← pow_add, h2]
        norm_num
      have hq : d.quantizeDP2 = ⟨d.man * 10 ^ (2 - d.exp), 2⟩ := by
        simp [Dec.quantizeDP2, h]
      rw [hq]
      have hz : d.man * 10 ^ (2 - d.exp) * (10 : ℤ) ^ d.exp - d.man * 100 = 0 := by
        rw [mul_assoc, hp]
        ring
      rw [hz]
      simp
    · have hq : d.quantizeDP2 = ⟨roundHalfEvenDiv d.man (10 ^ (d.exp - 2)), 2⟩ := by
        simp [Dec.quantizeDP2, h]
      have hsplit : (10 : ℤ) ^ d.exp = 100 * 10 ^ (d.exp - 2) := by
        rw [show d.exp = 2 + (d.exp - 2) from by omega, pow_add]
        norm_num
      have hD : (0 : ℤ) < 10 ^ (d.exp - 2) := by positivity
      have hc := roundHalfEvenDiv_close d.man (10 ^ (d.exp - 2)) hD
      rw [hq, hsplit]
      have hz : roundHalfEvenDiv d.man (10 ^ (d.exp - 2)) * (100 * 10 ^ (d.exp - 2))
          - d.man * 100 =
          100 * (roundHalfEvenDiv d.man (10 ^ (d.exp - 2)) * 10 ^ (d.exp - 2) - d.man) := by
        ring
      rw [hz, abs_mul, abs_of_nonneg (by norm_num : (0 : ℤ) ≤ 100)]
      linarith
  · intro h
    have hq : d.quantizeDP2 = ⟨d.man * 10 ^ (2 - d.exp), 2⟩ := by
      simp [Dec.quantizeDP2, h]
    rw [hq]
    unfold Dec.toRat
    push_cast
    exact rat_shift_div (d.man : ℚ) d.exp 2 h

theorem C4_price_quantization_witness :
    ((⟨1250, 2⟩ : Dec).exp ≤ 2)
    ∧ (Dec.quantizeDP2 ⟨1250, 2⟩).toRat = Dec.toRat ⟨1250, 2⟩ := by
  refine ⟨by norm_num, ?_⟩
  exact (C4_price_quantization
    ⟨"GBP", ⟨0, 2⟩, ⟨0, 2⟩, ⟨0, 2⟩, ⟨0, 2⟩⟩ ⟨1250, 2⟩).2.2.2 (by norm_num)

/-- Claim C7: the formatting helpers prefix the symbol for GBP, USD and
EUR directly to the rendered value and fall back to the code followed by
a space for any other currency code; in particular a GBP price with gross
12.50 formats its gross as pound-prefixed 12.50 and a JPY price with
gross 500 formats it with the JPY prefix and a space. -/
theorem C7_currency_formatting (p : Price) (v : String) :
    formatCurrency "GBP" v = "£" ++ v
    ∧ formatCurrency "USD" v = "$" ++ v
    ∧ formatCurrency "EUR" v = "€" ++ v
    ∧ (p.currency_code ≠ "GBP" → p.currency_code ≠ "USD" →
        p.currency_code ≠ "EUR" →
        Price.formatted_gross p = p.currency_code ++ " " ++ p.gross.pyStr)
    ∧ Price.formatted_net p = formatCurrency p.currency_code p.net.pyStr
    ∧ Price.formatted_gross p = formatCurrency p.currency_code p.gross.pyStr
    ∧ Price.formatted_tax p = formatCurrency p.currency_code p.tax.pyStr
    ∧ Price.formatted_gross ⟨"GBP", ⟨0, 2⟩, ⟨1250, 2⟩⟩ = "£12.50"
    ∧ Price.formatted_gross ⟨"JPY", ⟨0, 0⟩, ⟨500, 0⟩⟩ = "JPY 500" := by
  refine ⟨by simp [formatCurrency], by simp [formatCurrency],
    by simp [formatCurrency], ?_, rfl, rfl, rfl, by rfl, by rfl⟩
  intro h1 h2 h3
  simp [Price.formatted_gross, formatCurrency, h1, h2, h3]

theorem C7_currency_formatting_witness :
    (("JPY" : String) ≠ "GBP")
    ∧ Price.formatted_gross ⟨"JPY", ⟨0, 0⟩, ⟨500, 0⟩⟩ =
        "JPY" ++ " " ++ Dec.pyStr ⟨500, 0⟩ :=
  ⟨by decide,
   (C7_currency_formatting ⟨"JPY", ⟨0, 0⟩, ⟨500, 0⟩⟩ "x").2.2.2.1
     (by decide) (by decide) (by decide)⟩

/-- Claim C8: refresh replaces every own field of the job with the fields
of the copy freshly fetched for the same id from the owning collection;
under a fixed remote state whose fetch returns a job carrying the queried
id and collection, a second refresh yields a field-wise equal object. -/
theorem C8_refresh_idempotent (g : Nat → Nat → JobState) (s : JobState)
    (hid : ∀ c i, (g c i).id = i) (hcol : ∀ c i, (g c i).collection = c) :
    Job.refreshOp g s = g s.collection s.id
    ∧ jobEqJob (Job.refreshOp g (Job.refreshOp g s)) (Job.refreshOp g s) = true := by
  refine ⟨rfl, ?_⟩
  unfold Job.refreshOp
  rw [hid, hcol]
  exact jobEqJob_refl _

theorem C8_refresh_idempotent_witness :
    jobEqJob
      (Job.refreshOp (fun c i => ⟨c, i, "NEW", none, none, none, none, none, 0⟩)
        (Job.refreshOp (fun c i => ⟨c, i, "NEW", none, none, none, none, none, 0⟩)
          ⟨0, 1, "QUOTED", some 2, some 3, none, some 4, none, 7⟩))
      (Job.refreshOp (fun c i => ⟨c, i, "NEW", none, none, none, none, none, 0⟩)
        ⟨0, 1, "QUOTED", some 2, some 3, none, some 4, none, 7⟩) = true :=
  (C8_refresh_idempotent (fun c i => ⟨c, i, "NEW", none, none, none, none, none, 0⟩)
    ⟨0, 1, "QUOTED", some 2, some 3, none, some 4, none, 7⟩
    (fun _ _ => rfl) (fun _ _ => rfl)).2

/-- Claim C9: delete issues the remote delete on the job resource path and
returns the local fields unchanged whether the call succeeds or fails; a
transport failure is re-raised wrapped as the generic API error keeping
the original failure as its cause. -/
theorem C9_delete_frame (api : String → Except TransportErr Unit)
    (itemUrlPath : Nat → Nat → String) (s : JobState) :
    (Job.deleteOp api itemUrlPath s).2 = s
    ∧ (api (Job.urlPath itemUrlPath s) = Except.ok () →
        Job.deleteOp api itemUrlPath s = (Except.ok (), s))
    ∧ (∀ e, api (Job.urlPath itemUrlPath s) = Except.error e →
        Job.deleteOp api itemUrlPath s = (Except.error ⟨e⟩, s)) := by
  refine ⟨?_, ?_, ?_⟩
  · simp only [Job.deleteOp]
    cases api (Job.urlPath itemUrlPath s) <;> rfl
  · intro h
    simp [Job.deleteOp, h]
  · intro e h
    simp [Job.deleteOp, h]

theorem C9_delete_frame_witness :
    Job.deleteOp (fun _ => Except.error ⟨500⟩) (fun _ _ => "jobs-1")
      ⟨0, 1, "NEW", none, none, none, none, none, 0⟩ =
      (Except.error ⟨⟨500⟩⟩, ⟨0, 1, "NEW", none, none, none, none, none, 0⟩) :=
  (C9_delete_frame (fun _ => Except.error ⟨500⟩) (fun _ _ => "jobs-1")
    ⟨0, 1, "NEW", none, none, none, none, none, 0⟩).2.2 ⟨500⟩ rfl

/-- Claim C10: equality is not uniformly total across the value types:
JobPrice equality carries an explicit type guard and returns false on any
non-JobPrice operand, while Price, Metric and Job equality read the other
operand with no guard and are undefined (none, the attribute error) on
any operand of a different type. -/
theorem C10_eq_type_guards (jp : JobPrice) (p : Price) (m : Metric)
    (j : JobState) (v : PyVal) :
    (v.isJobPrice = false → JobPrice.eqPy jp v = false)
    ∧ (v.isPrice = false → Price.eqPy p v = none)
    ∧ (v.isMetric = false → Metric.eqPy m v = none)
    ∧ (v.isJob = false → JobState.eqPy j v = none) := by
  cases v <;>
    simp [PyVal.isJobPrice, PyVal.isPrice, PyVal.isMetric, PyVal.isJob,
      JobPrice.eqPy, Price.eqPy, Metric.eqPy, JobState.eqPy]

theorem C10_eq_type_guards_witness :
    JobPrice.eqPy ⟨⟨"GBP", ⟨0, 2⟩, ⟨0, 2⟩⟩, ⟨"GBP", ⟨0, 2⟩, ⟨0, 2⟩⟩⟩
      (PyVal.vint 3) = false
    ∧ Price.eqPy ⟨"GBP", ⟨0, 2⟩, ⟨0, 2⟩⟩ (PyVal.vint 3) = none :=
  ⟨(C10_eq_type_guards ⟨⟨"GBP", ⟨0, 2⟩, ⟨0, 2⟩⟩, ⟨"GBP", ⟨0, 2⟩, ⟨0, 2⟩⟩⟩
      ⟨"GBP", ⟨0, 2⟩, ⟨0, 2⟩⟩ ⟨0, 0, 0, 0⟩
      ⟨0, 1, "NEW", none, none, none, none, none, 0⟩ (PyVal.vint 3)).1 rfl,
   (C10_eq_type_guards ⟨⟨"GBP", ⟨0, 2⟩, ⟨0, 2⟩⟩, ⟨"GBP", ⟨0, 2⟩, ⟨0, 2⟩⟩⟩
      ⟨"GBP", ⟨0, 2⟩, ⟨0, 2⟩⟩ ⟨0, 0, 0, 0⟩
      ⟨0, 1, "NEW", none, none, none, none, none, 0⟩ (PyVal.vint 3)).2.1 rfl⟩
